import Mathlib

/-!
# Verification of the ESP32 coffee-machine control core

A shallow embedding of the repository `coffee-machine-esp32` (files
`MachineController.cpp/.h`, `HAL.cpp/.h`, `SettingsManager.cpp/.h`,
`Config.h`) together with proofs settling the frozen claims about the
natural-language specification.

Modelling conventions:
* C++ `int` fields become `Int`; `unsigned long` millisecond clocks become
  `Nat` (the model assumes a monotonic clock whose value never precedes the
  recorded start stamps, which matches every run shorter than the 49-day
  `millis()` wrap).  Where the code compares an `unsigned long` with an
  `int` (C++ converts the `int` to `unsigned long` modulo 2^32) the model
  applies `ulOf`.
* `float` temperatures become `ℚ`; a NaN reading (MAX6675 fault) becomes
  `none` of `Option ℚ`.  Fractional Nescafe ratios (`* 0.75` etc. on values
  far below 2^53, hence exact in `double`, truncated toward zero on the
  assignment back to `int`) become `Int.tdiv`.
* Relay outputs live in a record of ten booleans; `HAL.relayOn/relayOff/`
  `allRelaysOff` ignore their request while `mcpReady` is false, which the
  model reproduces through the `halReady` flag.
* Each `tick` receives the sensor snapshot it observes (`TickInputs`);
  within one tick every `millis()` call is modelled by the same `now`.
* `MachineController::runDispenseSolids` contains the stray-parenthesis
  typo `if (!checkCup()))` noted by the specification; the model uses the
  intended guard (check cup, return on absence) exactly as every other
  sub-phase does.  The header typo `MODE Caffee` is read as `MODE_COFFEE`,
  the name the `.cpp` file uses.
-/

namespace Coffee

/-- `enum MachineState` from MachineController.h. -/
inductive MachineState where
  | IDLE
  | VALIDATE
  | DISPENSE_SOLIDS
  | HEAT_INTERNAL_PREHEAT
  | HEAT_INTERNAL_ACTIVE
  | HEAT_EXTERNAL
  | DISPENSE_LIQUID
  | MIX_DOWN
  | MIX_RUN
  | MIX_UP
  | DONE
  | ERROR_STATE
  | SAFE_STOP
deriving DecidableEq

open MachineState

/-- `enum DrinkMode` from MachineController.h. -/
inductive DrinkMode where
  | MODE_NONE
  | MODE_COFFEE
  | MODE_HOTWATER
  | MODE_NESCAFE
  | MODE_CLEANING
deriving DecidableEq

open DrinkMode

/-- The ten logical relay channels of Config.h. -/
inductive Relay where
  | tank1Sugar
  | tank2Coffee
  | tank3Nescafe
  | pumpWater
  | pumpMilk
  | heaterInternal
  | heaterExternal
  | mixerRotate
  | mixerUp
  | mixerDown
deriving DecidableEq

/-- The commanded (logical) on/off value of each relay channel.  `true`
means energized; the active-low polarity is HAL-internal. -/
structure Relays where
  tank1Sugar : Bool
  tank2Coffee : Bool
  tank3Nescafe : Bool
  pumpWater : Bool
  pumpMilk : Bool
  heaterInternal : Bool
  heaterExternal : Bool
  mixerRotate : Bool
  mixerUp : Bool
  mixerDown : Bool
deriving DecidableEq

/-- All ten relays de-energized. -/
def Relays.off : Relays :=
  ⟨false, false, false, false, false, false, false, false, false, false⟩

/-- Write one channel of the relay record. -/
def Relays.set (r : Relays) (c : Relay) (b : Bool) : Relays :=
  match c with
  | .tank1Sugar => {r with tank1Sugar := b}
  | .tank2Coffee => {r with tank2Coffee := b}
  | .tank3Nescafe => {r with tank3Nescafe := b}
  | .pumpWater => {r with pumpWater := b}
  | .pumpMilk => {r with pumpMilk := b}
  | .heaterInternal => {r with heaterInternal := b}
  | .heaterExternal => {r with heaterExternal := b}
  | .mixerRotate => {r with mixerRotate := b}
  | .mixerUp => {r with mixerUp := b}
  | .mixerDown => {r with mixerDown := b}

/-- `struct Settings` from SettingsManager.h (all C++ `int`). -/
structure Settings where
  tank1Time : Int
  tank2Time : Int
  tank3Time : Int
  waterPumpTime : Int
  milkPumpTime : Int
  intHeaterTime : Int
  intHeaterTemp : Int
  extHeaterTime : Int
  extHeaterTemp : Int
  mixerTime : Int
deriving DecidableEq

/-- `struct OrderParams` from MachineController.h. -/
structure OrderParams where
  mode : DrinkMode
  brewBase : String
  hotLiquid : String
  milkRatio : String
  size : String
  sugar : String
  cleanMilk : Bool
  cleanWater : Bool
deriving DecidableEq

/-- The sensor snapshot one `update()` call observes, together with the
millisecond clock value of that tick. -/
structure TickInputs where
  now : Nat
  cup : Bool
  internalTemp : Option ℚ
  limitUpper : Bool
  limitLower : Bool
deriving DecidableEq

/-- The whole controller state: the `MachineController` fields plus the
relay outputs and the `mcpReady` flag of the HAL it drives. -/
structure Machine where
  halReady : Bool
  relays : Relays
  state : MachineState
  order : OrderParams
  cfg : Settings
  currentStep : String
  errorMsg : String
  stateStartTime : Nat
  heaterStartTime : Nat
  pumpStartTime : Nat
  stepStartTime : Nat
  preheatTarget : ℚ
  pumpDuration : Int
  waterDuration : Int
  milkDuration : Int
deriving DecidableEq

/-- Config.h `INTERNAL_HEATER_ABS_MAX` (compared against a float). -/
def INTERNAL_HEATER_ABS_MAX : ℚ := 110

/-- Config.h `LIMIT_TIMEOUT_MS`. -/
def LIMIT_TIMEOUT_MS : Nat := 10000

/-- Config.h `DEBOUNCE_READS`. -/
def DEBOUNCE_READS : Nat := 5

/-- C++ conversion of a (32-bit) `int` to `unsigned long`, as performed by
comparisons such as `millis() - start > cfg.intHeaterTime * 1000`. -/
def ulOf (z : Int) : Nat := (z % 4294967296).toNat

/-- `HAL::relayOn` (no-op unless the MCP is ready). -/
def relayOn (m : Machine) (c : Relay) : Machine :=
  {m with relays := if m.halReady then m.relays.set c true else m.relays}

/-- `HAL::relayOff` (no-op unless the MCP is ready). -/
def relayOff (m : Machine) (c : Relay) : Machine :=
  {m with relays := if m.halReady then m.relays.set c false else m.relays}

/-- `HAL::allRelaysOff` (no-op unless the MCP is ready). -/
def allRelaysOff (m : Machine) : Machine :=
  {m with relays := if m.halReady then Relays.off else m.relays}

/-- `MachineController::isBusy`. -/
def isBusy (m : Machine) : Bool :=
  decide (m.state ≠ IDLE ∧ m.state ≠ ERROR_STATE)

/-- `MachineController::setState` (logging dropped). -/
def setState (m : Machine) (now : Nat) (s : MachineState) : Machine :=
  {m with state := s, stateStartTime := now}

/-- `MachineController::safeStop`. -/
def safeStop (m : Machine) : Machine :=
  {allRelaysOff m with currentStep := "Stopped"}

/-- `MachineController::setError`: record the message, enter
`ERROR_STATE`, run `safeStop`. -/
def setError (m : Machine) (now : Nat) (e : String) : Machine :=
  safeStop (setState {m with errorMsg := e} now ERROR_STATE)

/-- The failure branch of `MachineController::checkCup` (the branch taken
when `hal.cupPresent()` is false); on a present cup `checkCup` leaves the
controller untouched and the callers continue, which the run functions
below inline. -/
def cupFailure (m : Machine) (now : Nat) : Machine :=
  if m.state = IDLE ∨ m.state = VALIDATE then
    setError m now "NO_CUP"
  else
    safeStop (setError m now "NO_CUP_DURING_RUN")

/-- `MachineController::getSizeMultiplier`. -/
def getSizeMultiplier (m : Machine) : Int :=
  if m.order.size = "Double" then 2 else 1

/-- `MachineController::getSugarMultiplier`. -/
def getSugarMultiplier (m : Machine) : Int :=
  if m.order.sugar = "High" then 4
  else if m.order.sugar = "Medium" then 2
  else 1

/-- `MachineController::stop` (logging dropped): just `safeStop`. -/
def stop (m : Machine) : Machine := safeStop m

/-- `MachineController::start`.  `snap` is the snapshot the call reads
from `settings.get()`, `now` the `millis()` value inside `setState`. -/
def start (m : Machine) (params : OrderParams) (snap : Settings) (now : Nat) :
    Bool × Machine :=
  if m.halReady = false then
    (false, setError m now "NOT_READY")
  else if isBusy m then
    (false, setError m now "BUSY")
  else
    (true, setState {m with order := params, cfg := snap, errorMsg := ""} now VALIDATE)

/-- `MachineController::runDispenseSolids` (with the intended cup guard,
see the header comment about the stray-parenthesis typo). -/
def runDispenseSolids (m : Machine) (inp : TickInputs) : Machine :=
  if inp.cup = false then cupFailure m inp.now else
  let m1 := {m with currentStep := "Dispensing solids"}
  match m1.order.mode with
  | MODE_COFFEE => relayOn (relayOn m1 .tank1Sugar) .tank2Coffee
  | MODE_NESCAFE => relayOn (relayOn m1 .tank1Sugar) .tank3Nescafe
  | MODE_HOTWATER => relayOn m1 .tank1Sugar
  | _ => m1

/-- `MachineController::runHeatInternalPreheat`. -/
def runHeatInternalPreheat (m : Machine) (inp : TickInputs) : Machine :=
  if inp.cup = false then cupFailure m inp.now else
  let m1 := {m with currentStep := "Preheating"}
  let m2 :=
    if m1.heaterStartTime = 0 then
      {relayOn m1 .heaterInternal with
        heaterStartTime := inp.now
        preheatTarget := (m1.cfg.intHeaterTemp : ℚ) - 5}
    else m1
  let elapsed := inp.now - m2.heaterStartTime
  if elapsed > ulOf (m2.cfg.intHeaterTime * 1000) then
    relayOff (setError m2 inp.now "HEAT_TIMEOUT") .heaterInternal
  else
    match inp.internalTemp with
    | some t =>
      if t ≥ m2.preheatTarget then
        {setState m2 inp.now HEAT_INTERNAL_ACTIVE with pumpStartTime := 0}
      else m2
    | none => m2

/-- First-entry block of `MachineController::runHeatInternalActive`
(the `pumpStartTime == 0` branch): stamp the pump clock, compute the
mode-dependent durations and energize the first pump. -/
def heatActiveEntry (m : Machine) (now : Nat) : Machine :=
  let m1 := {m with pumpStartTime := now}
  match m1.order.mode with
  | MODE_HOTWATER =>
    if m1.order.hotLiquid = "water" then
      relayOn {m1 with
        pumpDuration := getSizeMultiplier m1 * m1.cfg.waterPumpTime * 1000} .pumpWater
    else if m1.order.hotLiquid = "milk_medium" then
      relayOn {m1 with
        pumpDuration := getSizeMultiplier m1 * m1.cfg.milkPumpTime * 1000} .pumpMilk
    else if m1.order.hotLiquid = "milk_extra" then
      relayOn {m1 with
        pumpDuration := getSizeMultiplier m1 * m1.cfg.milkPumpTime * 2000} .pumpMilk
    else m1
  | MODE_NESCAFE =>
    let waterTime : Int := getSizeMultiplier m1 * m1.cfg.waterPumpTime * 1000
    let milkTime : Int := getSizeMultiplier m1 * m1.cfg.milkPumpTime * 1000
    let m2 :=
      if m1.order.milkRatio = "none" then
        {m1 with waterDuration := waterTime, milkDuration := 0}
      else if m1.order.milkRatio = "medium" then
        {m1 with
          waterDuration := Int.tdiv (waterTime * 3) 4
          milkDuration := Int.tdiv milkTime 4}
      else if m1.order.milkRatio = "extra" then
        {m1 with
          waterDuration := Int.tdiv waterTime 2
          milkDuration := Int.tdiv milkTime 2}
      else m1
    let m3 := relayOn m2 .pumpWater
    {m3 with pumpDuration := m3.waterDuration + m3.milkDuration}
  | _ => m1

/-- Tail of `MachineController::runHeatInternalActive` after the
temperature block: the Nescafe water-to-milk hand-over followed by the
pump-complete transition to `MIX_DOWN`.  `pumpElapsed` is the already
computed `millis() - pumpStartTime`. -/
def heatActiveTail (m : Machine) (now pumpElapsed : Nat) : Machine :=
  let m1 :=
    if m.order.mode = MODE_NESCAFE ∧ pumpElapsed > ulOf m.waterDuration ∧
        m.milkDuration > 0 then
      relayOn (relayOff m .pumpWater) .pumpMilk
    else m
  if pumpElapsed ≥ ulOf m1.pumpDuration then
    let m2 := relayOff (relayOff (relayOff m1 .pumpWater) .pumpMilk) .heaterInternal
    setState {m2 with heaterStartTime := 0} now MIX_DOWN
  else m1

/-- Steady part of `MachineController::runHeatInternalActive` after the
first-entry block selected `m2`: the heat-budget timeout, the bang-bang
hysteresis, the absolute-maximum check, and the pump phases. -/
def heatActiveLoop (m2 : Machine) (inp : TickInputs) : Machine :=
  let pumpElapsed := inp.now - m2.pumpStartTime
  let heatElapsed := inp.now - m2.heaterStartTime
  if heatElapsed > ulOf (m2.cfg.intHeaterTime * 1000) then
    relayOff (relayOff (relayOff (setError m2 inp.now "HEAT_TIMEOUT")
      .heaterInternal) .pumpWater) .pumpMilk
  else
    match inp.internalTemp with
    | some t =>
      let m3 :=
        if t < (m2.cfg.intHeaterTemp : ℚ) - 2 then relayOn m2 .heaterInternal
        else if t > (m2.cfg.intHeaterTemp : ℚ) + 2 then relayOff m2 .heaterInternal
        else m2
      if t > INTERNAL_HEATER_ABS_MAX then
        relayOff (setError m3 inp.now "SENSOR_FAIL") .heaterInternal
      else
        heatActiveTail m3 inp.now pumpElapsed
    | none => heatActiveTail m2 inp.now pumpElapsed

/-- `MachineController::runHeatInternalActive`. -/
def runHeatInternalActive (m : Machine) (inp : TickInputs) : Machine :=
  if inp.cup = false then cupFailure m inp.now else
  let m1 := {m with currentStep := "Heating and pumping"}
  let m2 := if m1.pumpStartTime = 0 then heatActiveEntry m1 inp.now else m1
  heatActiveLoop m2 inp

/-- `MachineController::runHeatExternal` (timer-only; `extHeaterTemp` is
never read). -/
def runHeatExternal (m : Machine) (inp : TickInputs) : Machine :=
  if inp.cup = false then cupFailure m inp.now else
  let m1 := {m with currentStep := "Cup warming"}
  let m2 :=
    if m1.stepStartTime = 0 then
      relayOn {m1 with stepStartTime := inp.now} .heaterExternal
    else m1
  let elapsed := inp.now - m2.stepStartTime
  if elapsed ≥ ulOf (m2.cfg.extHeaterTime * 1000) then
    setState {relayOff m2 .heaterExternal with stepStartTime := 0} inp.now MIX_DOWN
  else m2

/-- The `MODE_COFFEE` body of `MachineController::runDispenseLiquid`. -/
def dispenseLiquidCoffee (m : Machine) (inp : TickInputs) : Machine :=
  let m1 := {m with currentStep := "Dispensing liquid"}
  let m2 :=
    if m1.pumpStartTime = 0 then
      let m1a := {m1 with pumpStartTime := inp.now}
      if m1a.order.brewBase = "Water" then
        relayOn {m1a with
          pumpDuration := getSizeMultiplier m1a * m1a.cfg.waterPumpTime * 1000}
          .pumpWater
      else
        relayOn {m1a with
          pumpDuration := getSizeMultiplier m1a * m1a.cfg.milkPumpTime * 1000}
          .pumpMilk
    else m1
  if inp.now - m2.pumpStartTime ≥ ulOf m2.pumpDuration then
    setState {relayOff (relayOff m2 .pumpWater) .pumpMilk with
      pumpStartTime := 0} inp.now HEAT_EXTERNAL
  else m2

/-- The `MODE_CLEANING` body of `MachineController::runDispenseLiquid`. -/
def dispenseLiquidCleaning (m : Machine) (inp : TickInputs) : Machine :=
  let m1 := {m with currentStep := "Cleaning"}
  let m2 :=
    if m1.pumpStartTime = 0 then
      let m1a := {m1 with pumpStartTime := inp.now}
      let m1b := if m1a.order.cleanWater then relayOn m1a .pumpWater else m1a
      let m1c := if m1b.order.cleanMilk then relayOn m1b .pumpMilk else m1b
      let dur : Int :=
        max (if m1c.order.cleanWater then m1c.cfg.waterPumpTime else 0)
          (if m1c.order.cleanMilk then m1c.cfg.milkPumpTime else 0) * 1000
      {m1c with pumpDuration := dur}
    else m1
  if inp.now - m2.pumpStartTime ≥ ulOf m2.pumpDuration then
    setState {relayOff (relayOff m2 .pumpWater) .pumpMilk with
      pumpStartTime := 0} inp.now DONE
  else m2

/-- `MachineController::runDispenseLiquid` (Coffee and Cleaning). -/
def runDispenseLiquid (m : Machine) (inp : TickInputs) : Machine :=
  if inp.cup = false then cupFailure m inp.now
  else if m.order.mode = MODE_COFFEE then dispenseLiquidCoffee m inp
  else if m.order.mode = MODE_CLEANING then dispenseLiquidCleaning m inp
  else m

/-- The steady part of `MachineController::runMixDown` (lower-limit test
and travel timeout). -/
def mixDownTail (m : Machine) (inp : TickInputs) : Machine :=
  if inp.limitLower then
    setState {relayOff m .mixerDown with stepStartTime := 0} inp.now MIX_RUN
  else if inp.now - m.stepStartTime > LIMIT_TIMEOUT_MS then
    setError (relayOff m .mixerDown) inp.now "TIMEOUT_LIMIT"
  else m

/-- `MachineController::runMixDown`. -/
def runMixDown (m : Machine) (inp : TickInputs) : Machine :=
  if inp.cup = false then cupFailure m inp.now else
  let m1 := {m with currentStep := "Mixer moving down"}
  if m1.stepStartTime = 0 then
    let m2 := {m1 with stepStartTime := inp.now}
    if inp.limitUpper ∧ inp.limitLower then
      setError m2 inp.now "LIMIT_INVALID"
    else
      mixDownTail (relayOn m2 .mixerDown) inp
  else
    mixDownTail m1 inp

/-- `MachineController::runMixRun`. -/
def runMixRun (m : Machine) (inp : TickInputs) : Machine :=
  if inp.cup = false then cupFailure m inp.now else
  let m1 := {m with currentStep := "Mixing"}
  let m2 :=
    if m1.stepStartTime = 0 then
      relayOn {m1 with stepStartTime := inp.now} .mixerRotate
    else m1
  if inp.now - m2.stepStartTime ≥ ulOf (m2.cfg.mixerTime * 1000) then
    setState {relayOff m2 .mixerRotate with stepStartTime := 0} inp.now MIX_UP
  else m2

/-- `MachineController::runMixUp`. -/
def runMixUp (m : Machine) (inp : TickInputs) : Machine :=
  if inp.cup = false then cupFailure m inp.now else
  let m1 := {m with currentStep := "Mixer moving up"}
  let m2 :=
    if m1.stepStartTime = 0 then
      relayOn {m1 with stepStartTime := inp.now} .mixerUp
    else m1
  if inp.limitUpper then
    setState {relayOff m2 .mixerUp with stepStartTime := 0} inp.now DONE
  else if inp.now - m2.stepStartTime > LIMIT_TIMEOUT_MS then
    setError (relayOff m2 .mixerUp) inp.now "TIMEOUT_LIMIT"
  else m2

/-- The shared `case DONE` body of the four update sequencers. -/
def doneStep (m : Machine) (now : Nat) : Machine :=
  {setState (allRelaysOff m) now IDLE with currentStep := ""}

/-- The shared `case VALIDATE` body. -/
def validateStep (m : Machine) (inp : TickInputs) (next : MachineState) : Machine :=
  if inp.cup = false then cupFailure m inp.now else setState m inp.now next

/-- `MachineController::updateCoffee`. -/
def updateCoffee (m : Machine) (inp : TickInputs) : Machine :=
  match m.state with
  | VALIDATE => validateStep m inp DISPENSE_SOLIDS
  | DISPENSE_SOLIDS =>
    let m1 := runDispenseSolids m inp
    if m1.state = DISPENSE_SOLIDS ∧
        inp.now - m1.stateStartTime >
          ulOf ((getSugarMultiplier m1 * m1.cfg.tank1Time +
                 getSizeMultiplier m1 * m1.cfg.tank2Time) * 1000) then
      setState (relayOff (relayOff m1 .tank1Sugar) .tank2Coffee) inp.now
        DISPENSE_LIQUID
    else m1
  | DISPENSE_LIQUID => runDispenseLiquid m inp
  | HEAT_EXTERNAL => runHeatExternal m inp
  | MIX_DOWN => runMixDown m inp
  | MIX_RUN => runMixRun m inp
  | MIX_UP => runMixUp m inp
  | DONE => doneStep m inp.now
  | _ => m

/-- `MachineController::updateHotWater`. -/
def updateHotWater (m : Machine) (inp : TickInputs) : Machine :=
  match m.state with
  | VALIDATE => validateStep m inp DISPENSE_SOLIDS
  | DISPENSE_SOLIDS =>
    let m1 := runDispenseSolids m inp
    if m1.state = DISPENSE_SOLIDS ∧
        inp.now - m1.stateStartTime >
          ulOf (getSugarMultiplier m1 * m1.cfg.tank1Time * 1000) then
      setState (relayOff m1 .tank1Sugar) inp.now HEAT_INTERNAL_PREHEAT
    else m1
  | HEAT_INTERNAL_PREHEAT => runHeatInternalPreheat m inp
  | HEAT_INTERNAL_ACTIVE => runHeatInternalActive m inp
  | MIX_DOWN => runMixDown m inp
  | MIX_RUN => runMixRun m inp
  | MIX_UP => runMixUp m inp
  | DONE => doneStep m inp.now
  | _ => m

/-- `MachineController::updateNescafe`. -/
def updateNescafe (m : Machine) (inp : TickInputs) : Machine :=
  match m.state with
  | VALIDATE => validateStep m inp DISPENSE_SOLIDS
  | DISPENSE_SOLIDS =>
    let m1 := runDispenseSolids m inp
    if m1.state = DISPENSE_SOLIDS ∧
        inp.now - m1.stateStartTime >
          ulOf ((getSugarMultiplier m1 * m1.cfg.tank1Time +
                 getSizeMultiplier m1 * m1.cfg.tank3Time) * 1000) then
      setState (relayOff (relayOff m1 .tank1Sugar) .tank3Nescafe) inp.now
        HEAT_INTERNAL_PREHEAT
    else m1
  | HEAT_INTERNAL_PREHEAT => runHeatInternalPreheat m inp
  | HEAT_INTERNAL_ACTIVE => runHeatInternalActive m inp
  | MIX_DOWN => runMixDown m inp
  | MIX_RUN => runMixRun m inp
  | MIX_UP => runMixUp m inp
  | DONE => doneStep m inp.now
  | _ => m

/-- `MachineController::updateCleaning`. -/
def updateCleaning (m : Machine) (inp : TickInputs) : Machine :=
  match m.state with
  | VALIDATE => validateStep m inp DISPENSE_LIQUID
  | DISPENSE_LIQUID => runDispenseLiquid m inp
  | DONE => doneStep m inp.now
  | _ => m

/-- `MachineController::update` — one `tick()`. -/
def update (m : Machine) (inp : TickInputs) : Machine :=
  if m.state = IDLE ∨ m.state = ERROR_STATE then m
  else
    match m.order.mode with
    | MODE_COFFEE => updateCoffee m inp
    | MODE_HOTWATER => updateHotWater m inp
    | MODE_NESCAFE => updateNescafe m inp
    | MODE_CLEANING => updateCleaning m inp
    | MODE_NONE => setError m inp.now "BAD_MODE"

/-- The field ranges `SettingsManager::validate` checks (§3.2 of the
specification uses the same bounds). -/
def inRange (s : Settings) : Prop :=
  0 ≤ s.tank1Time ∧ s.tank1Time ≤ 30 ∧
  0 ≤ s.tank2Time ∧ s.tank2Time ≤ 30 ∧
  0 ≤ s.tank3Time ∧ s.tank3Time ≤ 30 ∧
  0 ≤ s.waterPumpTime ∧ s.waterPumpTime ≤ 60 ∧
  0 ≤ s.milkPumpTime ∧ s.milkPumpTime ≤ 60 ∧
  10 ≤ s.intHeaterTime ∧ s.intHeaterTime ≤ 120 ∧
  60 ≤ s.intHeaterTemp ∧ s.intHeaterTemp ≤ 100 ∧
  10 ≤ s.extHeaterTime ∧ s.extHeaterTime ≤ 180 ∧
  60 ≤ s.extHeaterTemp ∧ s.extHeaterTemp ≤ 100 ∧
  5 ≤ s.mixerTime ∧ s.mixerTime ≤ 60

instance (s : Settings) : Decidable (inRange s) := by
  unfold inRange; infer_instance

/-- `SettingsManager::validate`. -/
def validate (s : Settings) : Bool := decide (inRange s)

/-- `SettingsManager::save`, acting on the in-memory `current` record
(`cur`); returns the C++ result together with the new `current`.  The NVS
`putInt` mirror writes are outside the model. -/
def save (cur : Settings) (s : Settings) : Bool × Settings :=
  if validate s = false then (false, cur) else (true, s)

/-- `SettingsManager::get`. -/
def get (cur : Settings) : Settings := cur

/-- Debounce bookkeeping of one limit-switch channel: `HAL::debounceState`
(initialized `HIGH`, i.e. `true`) and `HAL::debounceCount` (a `uint8_t`,
kept below 256 by the explicit `% 256` of the 8-bit increment). -/
structure DebounceState where
  dState : Bool
  dCount : Nat
deriving DecidableEq

/-- `HAL::debounceRead`: the returned sample and the updated bookkeeping.
`current` is the raw `digitalRead` value. -/
def debounceRead (st : DebounceState) (current : Bool) : Bool × DebounceState :=
  if current = st.dState then
    let c := (st.dCount + 1) % 256
    (if DEBOUNCE_READS ≤ c then current else !current, {st with dCount := c})
  else
    (!current, ⟨current, 1⟩)

/-- Power-on debounce bookkeeping (`HAL::HAL`): state `HIGH`, count 0. -/
def debounceInit : DebounceState := ⟨true, 0⟩

/-- Bookkeeping after feeding `n` constant raw samples `b` from power-on. -/
def debounceConst (b : Bool) : Nat → DebounceState
  | 0 => debounceInit
  | n + 1 => (debounceRead (debounceConst b n) b).2

/-- The value `debounceRead` returns for sample number `n + 1` of a
constant raw stream `b` from power-on. -/
def debounceOut (b : Bool) (n : Nat) : Bool :=
  (debounceRead (debounceConst b n) b).1

/-! ## Concrete instances used by witnesses and counterexamples -/

/-- The default settings of `SettingsManager::loadDefaults`. -/
def defaultCfg : Settings := ⟨2, 3, 3, 5, 4, 30, 95, 45, 90, 10⟩

/-- A Nescafe order: Single size, Low sugar, medium milk ratio. -/
def nescafeOrder : OrderParams :=
  ⟨MODE_NESCAFE, "", "", "medium", "Single", "Low", false, false⟩

/-- A coffee order: Single size, Medium sugar, water base. -/
def coffeeOrder : OrderParams :=
  ⟨MODE_COFFEE, "Water", "", "", "Single", "Medium", false, false⟩

/-- A hot-drink order: Single size, Low sugar, plain water. -/
def hotWaterOrder : OrderParams :=
  ⟨MODE_HOTWATER, "", "water", "", "Single", "Low", false, false⟩

/-- A ready machine carrying `coffeeOrder`, mid-cycle in
`DISPENSE_SOLIDS` with both solids tanks energized. -/
def solidsMachine : Machine where
  halReady := true
  relays := {Relays.off with tank1Sugar := true, tank2Coffee := true}
  state := DISPENSE_SOLIDS
  order := coffeeOrder
  cfg := defaultCfg
  currentStep := "Dispensing solids"
  errorMsg := ""
  stateStartTime := 0
  heaterStartTime := 0
  pumpStartTime := 0
  stepStartTime := 0
  preheatTarget := 0
  pumpDuration := 0
  waterDuration := 0
  milkDuration := 0

/-! ## Helper lemmas about the primitive operations -/

@[simp]
theorem Relays.set_off_false (c : Relay) : Relays.off.set c false = Relays.off := by
  cases c <;> rfl

@[simp]
theorem setError_state (m : Machine) (now : Nat) (e : String) :
    (setError m now e).state = ERROR_STATE := rfl

@[simp]
theorem setError_errorMsg (m : Machine) (now : Nat) (e : String) :
    (setError m now e).errorMsg = e := rfl

@[simp]
theorem setError_halReady (m : Machine) (now : Nat) (e : String) :
    (setError m now e).halReady = m.halReady := rfl

theorem setError_relays (m : Machine) (now : Nat) (e : String)
    (hr : m.halReady = true) : (setError m now e).relays = Relays.off := by
  simp [setError, safeStop, allRelaysOff, setState, hr]

@[simp]
theorem relayOff_state (m : Machine) (c : Relay) :
    (relayOff m c).state = m.state := rfl

@[simp]
theorem relayOff_errorMsg (m : Machine) (c : Relay) :
    (relayOff m c).errorMsg = m.errorMsg := rfl

@[simp]
theorem relayOff_halReady (m : Machine) (c : Relay) :
    (relayOff m c).halReady = m.halReady := rfl

theorem relayOff_relays_off (m : Machine) (c : Relay)
    (h : m.relays = Relays.off) : (relayOff m c).relays = Relays.off := by
  simp [relayOff, h]

@[simp]
theorem relayOn_state (m : Machine) (c : Relay) :
    (relayOn m c).state = m.state := rfl

@[simp]
theorem relayOn_errorMsg (m : Machine) (c : Relay) :
    (relayOn m c).errorMsg = m.errorMsg := rfl

@[simp]
theorem relayOn_halReady (m : Machine) (c : Relay) :
    (relayOn m c).halReady = m.halReady := rfl

@[simp]
theorem relayOn_cfg (m : Machine) (c : Relay) : (relayOn m c).cfg = m.cfg := rfl

@[simp]
theorem relayOn_order (m : Machine) (c : Relay) : (relayOn m c).order = m.order := rfl

@[simp]
theorem relayOn_pumpStartTime (m : Machine) (c : Relay) :
    (relayOn m c).pumpStartTime = m.pumpStartTime := rfl

@[simp]
theorem relayOn_pumpDuration (m : Machine) (c : Relay) :
    (relayOn m c).pumpDuration = m.pumpDuration := rfl

@[simp]
theorem relayOn_heaterStartTime (m : Machine) (c : Relay) :
    (relayOn m c).heaterStartTime = m.heaterStartTime := rfl

@[simp]
theorem relayOn_stepStartTime (m : Machine) (c : Relay) :
    (relayOn m c).stepStartTime = m.stepStartTime := rfl

@[simp]
theorem relayOn_waterDuration (m : Machine) (c : Relay) :
    (relayOn m c).waterDuration = m.waterDuration := rfl

@[simp]
theorem relayOn_milkDuration (m : Machine) (c : Relay) :
    (relayOn m c).milkDuration = m.milkDuration := rfl

@[simp]
theorem relayOff_cfg (m : Machine) (c : Relay) : (relayOff m c).cfg = m.cfg := rfl

@[simp]
theorem relayOff_order (m : Machine) (c : Relay) : (relayOff m c).order = m.order := rfl

@[simp]
theorem relayOff_pumpStartTime (m : Machine) (c : Relay) :
    (relayOff m c).pumpStartTime = m.pumpStartTime := rfl

@[simp]
theorem relayOff_pumpDuration (m : Machine) (c : Relay) :
    (relayOff m c).pumpDuration = m.pumpDuration := rfl

@[simp]
theorem relayOff_heaterStartTime (m : Machine) (c : Relay) :
    (relayOff m c).heaterStartTime = m.heaterStartTime := rfl

@[simp]
theorem relayOff_stepStartTime (m : Machine) (c : Relay) :
    (relayOff m c).stepStartTime = m.stepStartTime := rfl

@[simp]
theorem relayOff_waterDuration (m : Machine) (c : Relay) :
    (relayOff m c).waterDuration = m.waterDuration := rfl

@[simp]
theorem relayOff_milkDuration (m : Machine) (c : Relay) :
    (relayOff m c).milkDuration = m.milkDuration := rfl

@[simp]
theorem setState_errorMsg (m : Machine) (now : Nat) (s : MachineState) :
    (setState m now s).errorMsg = m.errorMsg := rfl

@[simp]
theorem setState_state (m : Machine) (now : Nat) (s : MachineState) :
    (setState m now s).state = s := rfl

theorem cupFailure_state (m : Machine) (now : Nat) :
    (cupFailure m now).state = ERROR_STATE := by
  unfold cupFailure; split <;> rfl

theorem cupFailure_errorMsg (m : Machine) (now : Nat) :
    (cupFailure m now).errorMsg =
      if m.state = IDLE ∨ m.state = VALIDATE then "NO_CUP"
      else "NO_CUP_DURING_RUN" := by
  unfold cupFailure; split <;> rfl

theorem cupFailure_relays (m : Machine) (now : Nat) (hr : m.halReady = true) :
    (cupFailure m now).relays = Relays.off := by
  unfold cupFailure
  split
  · exact setError_relays m now _ hr
  · simp [safeStop, allRelaysOff, setError, setState, hr]

/-- Case split describing one sequencer action: either the step keeps the
state (and the error message), or it moves to one of the listed follow-up
phases, or it completes to `IDLE` with every relay off, or it fails to
`ERROR_STATE` with every relay off and an error tag other than
`"ABORTED"`. -/
def Step (m r : Machine) (nexts : List MachineState) : Prop :=
  (r.state = m.state ∧ r.errorMsg = m.errorMsg) ∨
  (r.state ∈ nexts ∧ r.errorMsg = m.errorMsg) ∨
  (r.state = IDLE ∧ r.relays = Relays.off ∧ r.errorMsg = m.errorMsg) ∨
  (r.state = ERROR_STATE ∧ r.relays = Relays.off ∧ r.errorMsg ≠ "ABORTED")

theorem Step.mono {m r : Machine} {xs ys : List MachineState}
    (hsub : ∀ s, s ∈ xs → s ∈ ys) (h : Step m r xs) : Step m r ys := by
  rcases h with h | ⟨h1, h2⟩ | h | h
  · exact Or.inl h
  · exact Or.inr (Or.inl ⟨hsub _ h1, h2⟩)
  · exact Or.inr (Or.inr (Or.inl h))
  · exact Or.inr (Or.inr (Or.inr h))

theorem step_cupFailure (m : Machine) (now : Nat) (hr : m.halReady = true)
    (nexts : List MachineState) : Step m (cupFailure m now) nexts := by
  refine Or.inr (Or.inr (Or.inr ⟨cupFailure_state m now, cupFailure_relays m now hr, ?_⟩))
  rw [cupFailure_errorMsg]
  split <;> decide

theorem Step.transfer {m mm r : Machine} {xs : List MachineState}
    (hs : mm.state = m.state) (he : mm.errorMsg = m.errorMsg)
    (h : Step mm r xs) : Step m r xs := by
  rcases h with ⟨h1, h2⟩ | h | ⟨h1, h2, h3⟩ | h
  · exact Or.inl ⟨h1.trans hs, h2.trans he⟩
  · exact Or.inr (Or.inl ⟨h.1, h.2.trans he⟩)
  · exact Or.inr (Or.inr (Or.inl ⟨h1, h2, h3.trans he⟩))
  · exact Or.inr (Or.inr (Or.inr h))

theorem step_runMixRun (m : Machine) (inp : TickInputs) (hr : m.halReady = true) :
    Step m (runMixRun m inp) [MIX_UP] := by
  unfold runMixRun
  split
  · exact step_cupFailure m inp.now hr _
  · dsimp only
    split <;> split <;> simp [Step, setState, relayOn, relayOff]

theorem step_runMixUp (m : Machine) (inp : TickInputs) (hr : m.halReady = true) :
    Step m (runMixUp m inp) [DONE] := by
  unfold runMixUp
  split
  · exact step_cupFailure m inp.now hr _
  · dsimp only
    split <;> split <;> try split
    all_goals
      simp [Step, setState, relayOn, relayOff, setError, safeStop, allRelaysOff, hr]

theorem step_mixDownTail (m : Machine) (inp : TickInputs) (hr : m.halReady = true) :
    Step m (mixDownTail m inp) [MIX_RUN] := by
  unfold mixDownTail
  split <;> try split
  all_goals
    simp [Step, setState, relayOn, relayOff, setError, safeStop, allRelaysOff, hr]

theorem step_runMixDown (m : Machine) (inp : TickInputs) (hr : m.halReady = true) :
    Step m (runMixDown m inp) [MIX_RUN] := by
  unfold runMixDown
  split
  · exact step_cupFailure m inp.now hr _
  · dsimp only
    split
    · split
      · refine Or.inr (Or.inr (Or.inr ⟨rfl, ?_, ?_⟩))
        · simp [setError, safeStop, allRelaysOff, setState, hr]
        · simp
      · refine (step_mixDownTail _ inp ?_).transfer ?_ ?_ <;>
          simp [relayOn, hr]
    · refine (step_mixDownTail _ inp ?_).transfer ?_ ?_ <;>
        simp [hr]

theorem step_runDispenseSolids (m : Machine) (inp : TickInputs)
    (hr : m.halReady = true) : Step m (runDispenseSolids m inp) [] := by
  unfold runDispenseSolids
  split
  · exact step_cupFailure m inp.now hr _
  · cases hmode : m.order.mode <;>
      simp [Step, relayOn, hmode]

theorem step_runHeatInternalPreheat (m : Machine) (inp : TickInputs)
    (hr : m.halReady = true) :
    Step m (runHeatInternalPreheat m inp) [HEAT_INTERNAL_ACTIVE] := by
  unfold runHeatInternalPreheat
  split
  · exact step_cupFailure m inp.now hr _
  · dsimp only
    split <;> split
    case isTrue.isTrue =>
      refine Or.inr (Or.inr (Or.inr ⟨rfl, ?_, ?_⟩))
      · simp [relayOff, relayOn, setError, safeStop, allRelaysOff, setState, hr]
      · simp
    case isTrue.isFalse =>
      rcases inp.internalTemp with _ | t
      · exact Or.inl ⟨by simp [relayOn], by simp [relayOn]⟩
      · dsimp only
        split
        · exact Or.inr (Or.inl ⟨by simp [setState], by simp [setState, relayOn]⟩)
        · exact Or.inl ⟨by simp [relayOn], by simp [relayOn]⟩
    case isFalse.isTrue =>
      refine Or.inr (Or.inr (Or.inr ⟨rfl, ?_, ?_⟩))
      · simp [relayOff, setError, safeStop, allRelaysOff, setState, hr]
      · simp
    case isFalse.isFalse =>
      rcases inp.internalTemp with _ | t
      · exact Or.inl ⟨rfl, rfl⟩
      · dsimp only
        split
        · exact Or.inr (Or.inl ⟨by simp [setState], by simp [setState]⟩)
        · exact Or.inl ⟨rfl, rfl⟩

theorem step_runHeatExternal (m : Machine) (inp : TickInputs)
    (hr : m.halReady = true) : Step m (runHeatExternal m inp) [MIX_DOWN] := by
  unfold runHeatExternal
  split
  · exact step_cupFailure m inp.now hr _
  · dsimp only
    split <;> split <;>
      simp [Step, setState, relayOn, relayOff]

theorem step_dispenseLiquidCoffee (m : Machine) (inp : TickInputs) :
    Step m (dispenseLiquidCoffee m inp) [HEAT_EXTERNAL, DONE] := by
  unfold dispenseLiquidCoffee
  dsimp only
  split_ifs <;>
    solve
      | (refine Or.inl ⟨?_, ?_⟩ <;>
          simp only [relayOn_state, relayOff_state, relayOn_errorMsg,
            relayOff_errorMsg])
      | (refine Or.inr (Or.inl ⟨?_, ?_⟩)
         · simp only [setState_state]
           decide
         · simp only [setState_errorMsg, relayOff_errorMsg, relayOn_errorMsg])

theorem step_dispenseLiquidCleaning (m : Machine) (inp : TickInputs) :
    Step m (dispenseLiquidCleaning m inp) [HEAT_EXTERNAL, DONE] := by
  unfold dispenseLiquidCleaning
  dsimp only
  split_ifs <;>
    solve
      | (refine Or.inl ⟨?_, ?_⟩ <;>
          simp only [relayOn_state, relayOff_state, relayOn_errorMsg,
            relayOff_errorMsg])
      | (refine Or.inr (Or.inl ⟨?_, ?_⟩)
         · simp only [setState_state]
           decide
         · simp only [setState_errorMsg, relayOff_errorMsg, relayOn_errorMsg])

theorem step_runDispenseLiquid (m : Machine) (inp : TickInputs)
    (hr : m.halReady = true) :
    Step m (runDispenseLiquid m inp) [HEAT_EXTERNAL, DONE] := by
  unfold runDispenseLiquid
  split
  · exact step_cupFailure m inp.now hr _
  · split
    · exact step_dispenseLiquidCoffee m inp
    · split
      · exact step_dispenseLiquidCleaning m inp
      · exact Or.inl ⟨rfl, rfl⟩

theorem heatActiveEntry_state (m : Machine) (now : Nat) :
    (heatActiveEntry m now).state = m.state := by
  unfold heatActiveEntry
  cases hmode : m.order.mode <;> simp only [hmode] <;> split_ifs <;> rfl

theorem heatActiveEntry_errorMsg (m : Machine) (now : Nat) :
    (heatActiveEntry m now).errorMsg = m.errorMsg := by
  unfold heatActiveEntry
  cases hmode : m.order.mode <;> simp only [hmode] <;> split_ifs <;> rfl

theorem heatActiveEntry_halReady (m : Machine) (now : Nat) :
    (heatActiveEntry m now).halReady = m.halReady := by
  unfold heatActiveEntry
  cases hmode : m.order.mode <;> simp only [hmode] <;> split_ifs <;> rfl

theorem step_heatActiveTail (m : Machine) (now e : Nat) (_hr : m.halReady = true) :
    Step m (heatActiveTail m now e) [MIX_DOWN] := by
  unfold heatActiveTail
  dsimp only
  split <;> split <;>
    simp [Step, setState, relayOn, relayOff]

theorem step_heatActiveLoop (m : Machine) (inp : TickInputs)
    (hr : m.halReady = true) : Step m (heatActiveLoop m inp) [MIX_DOWN] := by
  unfold heatActiveLoop
  dsimp only
  split
  · refine Or.inr (Or.inr (Or.inr ⟨rfl, ?_, ?_⟩))
    · simp [relayOff, setError, safeStop, allRelaysOff, setState, hr]
    · simp
  · rcases inp.internalTemp with _ | t
    · refine (step_heatActiveTail m inp.now _ ?_).transfer ?_ ?_ <;> simp [hr]
    · dsimp only
      split
      · refine Or.inr (Or.inr (Or.inr ⟨rfl, ?_, ?_⟩))
        · split_ifs <;>
            simp [relayOff, relayOn, setError, safeStop, allRelaysOff, setState, hr]
        · simp
      · split
        · refine (step_heatActiveTail _ inp.now _ ?_).transfer ?_ ?_ <;>
            simp [relayOn, hr]
        · split
          · refine (step_heatActiveTail _ inp.now _ ?_).transfer ?_ ?_ <;>
              simp [relayOff, hr]
          · refine (step_heatActiveTail m inp.now _ ?_).transfer ?_ ?_ <;> simp [hr]

theorem step_runHeatInternalActive (m : Machine) (inp : TickInputs)
    (hr : m.halReady = true) :
    Step m (runHeatInternalActive m inp) [MIX_DOWN] := by
  unfold runHeatInternalActive
  split
  · exact step_cupFailure m inp.now hr _
  · dsimp only
    split
    · refine (step_heatActiveLoop _ inp ?_).transfer ?_ ?_
      · rw [heatActiveEntry_halReady]; exact hr
      · rw [heatActiveEntry_state]
      · rw [heatActiveEntry_errorMsg]
    · refine (step_heatActiveLoop _ inp ?_).transfer ?_ ?_ <;> simp [hr]

theorem step_validateStep (m : Machine) (inp : TickInputs) (next : MachineState)
    (hr : m.halReady = true) : Step m (validateStep m inp next) [next] := by
  unfold validateStep
  split
  · exact step_cupFailure m inp.now hr _
  · simp [Step, setState]

theorem step_doneStep (m : Machine) (now : Nat) (hr : m.halReady = true) :
    Step m (doneStep m now) [] := by
  refine Or.inr (Or.inr (Or.inl ⟨rfl, ?_, rfl⟩))
  simp [doneStep, setState, allRelaysOff, hr]

/-- The non-terminal phases a sequencer tick may move to. -/
def LIVE : List MachineState :=
  [VALIDATE, DISPENSE_SOLIDS, HEAT_INTERNAL_PREHEAT, HEAT_INTERNAL_ACTIVE,
   HEAT_EXTERNAL, DISPENSE_LIQUID, MIX_DOWN, MIX_RUN, MIX_UP, DONE]

theorem step_updateCoffee (m : Machine) (inp : TickInputs)
    (hr : m.halReady = true) : Step m (updateCoffee m inp) LIVE := by
  cases hst : m.state <;> simp only [updateCoffee, hst]
  case IDLE => exact Or.inl ⟨rfl, rfl⟩
  case VALIDATE => exact (step_validateStep m inp _ hr).mono (by decide)
  case DISPENSE_SOLIDS =>
    have h := step_runDispenseSolids m inp hr
    split
    case isTrue hg =>
      refine Or.inr (Or.inl ⟨?_, ?_⟩)
      · simp only [setState_state]; decide
      · simp only [setState_errorMsg, relayOff_errorMsg]
        rcases h with ⟨_, h2⟩ | ⟨h1, _⟩ | ⟨_, _, h2⟩ | ⟨h1, _, _⟩
        · exact h2
        · simp at h1
        · exact h2
        · rw [hg.1] at h1; exact absurd h1 (by decide)
    case isFalse => exact h.mono (by decide)
  case DISPENSE_LIQUID => exact (step_runDispenseLiquid m inp hr).mono (by decide)
  case HEAT_EXTERNAL => exact (step_runHeatExternal m inp hr).mono (by decide)
  case MIX_DOWN => exact (step_runMixDown m inp hr).mono (by decide)
  case MIX_RUN => exact (step_runMixRun m inp hr).mono (by decide)
  case MIX_UP => exact (step_runMixUp m inp hr).mono (by decide)
  case DONE => exact (step_doneStep m inp.now hr).mono (by decide)
  case ERROR_STATE => exact Or.inl ⟨rfl, rfl⟩
  case SAFE_STOP => exact Or.inl ⟨rfl, rfl⟩
  case HEAT_INTERNAL_PREHEAT => exact Or.inl ⟨rfl, rfl⟩
  case HEAT_INTERNAL_ACTIVE => exact Or.inl ⟨rfl, rfl⟩

theorem step_updateHotWater (m : Machine) (inp : TickInputs)
    (hr : m.halReady = true) : Step m (updateHotWater m inp) LIVE := by
  cases hst : m.state <;> simp only [updateHotWater, hst]
  case IDLE => exact Or.inl ⟨rfl, rfl⟩
  case VALIDATE => exact (step_validateStep m inp _ hr).mono (by decide)
  case DISPENSE_SOLIDS =>
    have h := step_runDispenseSolids m inp hr
    split
    case isTrue hg =>
      refine Or.inr (Or.inl ⟨?_, ?_⟩)
      · simp only [setState_state]; decide
      · simp only [setState_errorMsg, relayOff_errorMsg]
        rcases h with ⟨_, h2⟩ | ⟨h1, _⟩ | ⟨_, _, h2⟩ | ⟨h1, _, _⟩
        · exact h2
        · simp at h1
        · exact h2
        · rw [hg.1] at h1; exact absurd h1 (by decide)
    case isFalse => exact h.mono (by decide)
  case HEAT_INTERNAL_PREHEAT =>
    exact (step_runHeatInternalPreheat m inp hr).mono (by decide)
  case HEAT_INTERNAL_ACTIVE =>
    exact (step_runHeatInternalActive m inp hr).mono (by decide)
  case MIX_DOWN => exact (step_runMixDown m inp hr).mono (by decide)
  case MIX_RUN => exact (step_runMixRun m inp hr).mono (by decide)
  case MIX_UP => exact (step_runMixUp m inp hr).mono (by decide)
  case DONE => exact (step_doneStep m inp.now hr).mono (by decide)
  case ERROR_STATE => exact Or.inl ⟨rfl, rfl⟩
  case SAFE_STOP => exact Or.inl ⟨rfl, rfl⟩
  case HEAT_EXTERNAL => exact Or.inl ⟨rfl, rfl⟩
  case DISPENSE_LIQUID => exact Or.inl ⟨rfl, rfl⟩

theorem step_updateNescafe (m : Machine) (inp : TickInputs)
    (hr : m.halReady = true) : Step m (updateNescafe m inp) LIVE := by
  cases hst : m.state <;> simp only [updateNescafe, hst]
  case IDLE => exact Or.inl ⟨rfl, rfl⟩
  case VALIDATE => exact (step_validateStep m inp _ hr).mono (by decide)
  case DISPENSE_SOLIDS =>
    have h := step_runDispenseSolids m inp hr
    split
    case isTrue hg =>
      refine Or.inr (Or.inl ⟨?_, ?_⟩)
      · simp only [setState_state]; decide
      · simp only [setState_errorMsg, relayOff_errorMsg]
        rcases h with ⟨_, h2⟩ | ⟨h1, _⟩ | ⟨_, _, h2⟩ | ⟨h1, _, _⟩
        · exact h2
        · simp at h1
        · exact h2
        · rw [hg.1] at h1; exact absurd h1 (by decide)
    case isFalse => exact h.mono (by decide)
  case HEAT_INTERNAL_PREHEAT =>
    exact (step_runHeatInternalPreheat m inp hr).mono (by decide)
  case HEAT_INTERNAL_ACTIVE =>
    exact (step_runHeatInternalActive m inp hr).mono (by decide)
  case MIX_DOWN => exact (step_runMixDown m inp hr).mono (by decide)
  case MIX_RUN => exact (step_runMixRun m inp hr).mono (by decide)
  case MIX_UP => exact (step_runMixUp m inp hr).mono (by decide)
  case DONE => exact (step_doneStep m inp.now hr).mono (by decide)
  case ERROR_STATE => exact Or.inl ⟨rfl, rfl⟩
  case SAFE_STOP => exact Or.inl ⟨rfl, rfl⟩
  case HEAT_EXTERNAL => exact Or.inl ⟨rfl, rfl⟩
  case DISPENSE_LIQUID => exact Or.inl ⟨rfl, rfl⟩

theorem step_updateCleaning (m : Machine) (inp : TickInputs)
    (hr : m.halReady = true) : Step m (updateCleaning m inp) LIVE := by
  cases hst : m.state <;> simp only [updateCleaning, hst]
  case VALIDATE => exact (step_validateStep m inp _ hr).mono (by decide)
  case DISPENSE_LIQUID => exact (step_runDispenseLiquid m inp hr).mono (by decide)
  case DONE => exact (step_doneStep m inp.now hr).mono (by decide)
  all_goals exact Or.inl ⟨rfl, rfl⟩

/-- Every `tick` either stays put, moves within the live phases, completes
to `IDLE` with every relay off, or fails to `ERROR_STATE` with every relay
off and a fresh error tag distinct from `"ABORTED"`. -/
theorem step_update (m : Machine) (inp : TickInputs) (hr : m.halReady = true) :
    Step m (update m inp) LIVE := by
  unfold update
  split
  · exact Or.inl ⟨rfl, rfl⟩
  · cases hmode : m.order.mode <;> simp only [hmode]
    case MODE_NONE =>
      refine Or.inr (Or.inr (Or.inr ⟨rfl, setError_relays m inp.now _ hr, ?_⟩))
      simp
    case MODE_COFFEE => exact step_updateCoffee m inp hr
    case MODE_HOTWATER => exact step_updateHotWater m inp hr
    case MODE_NESCAFE => exact step_updateNescafe m inp hr
    case MODE_CLEANING => exact step_updateCleaning m inp hr

/-- Overwrite the (never consulted) `extHeaterTemp` field of the
controller's settings snapshot. -/
def setExtTemp (m : Machine) (x : Int) : Machine :=
  {m with cfg := {m.cfg with extHeaterTemp := x}}

@[simp]
theorem setExtTemp_halReady (m : Machine) (x : Int) :
    (setExtTemp m x).halReady = m.halReady := rfl

@[simp]
theorem setExtTemp_relays (m : Machine) (x : Int) :
    (setExtTemp m x).relays = m.relays := rfl

@[simp]
theorem setExtTemp_state (m : Machine) (x : Int) :
    (setExtTemp m x).state = m.state := rfl

@[simp]
theorem setExtTemp_order (m : Machine) (x : Int) :
    (setExtTemp m x).order = m.order := rfl

@[simp]
theorem setExtTemp_currentStep (m : Machine) (x : Int) :
    (setExtTemp m x).currentStep = m.currentStep := rfl

@[simp]
theorem setExtTemp_errorMsg (m : Machine) (x : Int) :
    (setExtTemp m x).errorMsg = m.errorMsg := rfl

@[simp]
theorem setExtTemp_stateStartTime (m : Machine) (x : Int) :
    (setExtTemp m x).stateStartTime = m.stateStartTime := rfl

@[simp]
theorem setExtTemp_heaterStartTime (m : Machine) (x : Int) :
    (setExtTemp m x).heaterStartTime = m.heaterStartTime := rfl

@[simp]
theorem setExtTemp_pumpStartTime (m : Machine) (x : Int) :
    (setExtTemp m x).pumpStartTime = m.pumpStartTime := rfl

@[simp]
theorem setExtTemp_stepStartTime (m : Machine) (x : Int) :
    (setExtTemp m x).stepStartTime = m.stepStartTime := rfl

@[simp]
theorem setExtTemp_preheatTarget (m : Machine) (x : Int) :
    (setExtTemp m x).preheatTarget = m.preheatTarget := rfl

@[simp]
theorem setExtTemp_pumpDuration (m : Machine) (x : Int) :
    (setExtTemp m x).pumpDuration = m.pumpDuration := rfl

@[simp]
theorem setExtTemp_waterDuration (m : Machine) (x : Int) :
    (setExtTemp m x).waterDuration = m.waterDuration := rfl

@[simp]
theorem setExtTemp_milkDuration (m : Machine) (x : Int) :
    (setExtTemp m x).milkDuration = m.milkDuration := rfl

@[simp]
theorem setExtTemp_tank1Time (m : Machine) (x : Int) :
    (setExtTemp m x).cfg.tank1Time = m.cfg.tank1Time := rfl

@[simp]
theorem setExtTemp_tank2Time (m : Machine) (x : Int) :
    (setExtTemp m x).cfg.tank2Time = m.cfg.tank2Time := rfl

@[simp]
theorem setExtTemp_tank3Time (m : Machine) (x : Int) :
    (setExtTemp m x).cfg.tank3Time = m.cfg.tank3Time := rfl

@[simp]
theorem setExtTemp_waterPumpTime (m : Machine) (x : Int) :
    (setExtTemp m x).cfg.waterPumpTime = m.cfg.waterPumpTime := rfl

@[simp]
theorem setExtTemp_milkPumpTime (m : Machine) (x : Int) :
    (setExtTemp m x).cfg.milkPumpTime = m.cfg.milkPumpTime := rfl

@[simp]
theorem setExtTemp_intHeaterTime (m : Machine) (x : Int) :
    (setExtTemp m x).cfg.intHeaterTime = m.cfg.intHeaterTime := rfl

@[simp]
theorem setExtTemp_intHeaterTemp (m : Machine) (x : Int) :
    (setExtTemp m x).cfg.intHeaterTemp = m.cfg.intHeaterTemp := rfl

@[simp]
theorem setExtTemp_extHeaterTime (m : Machine) (x : Int) :
    (setExtTemp m x).cfg.extHeaterTime = m.cfg.extHeaterTime := rfl

@[simp]
theorem setExtTemp_mixerTime (m : Machine) (x : Int) :
    (setExtTemp m x).cfg.mixerTime = m.cfg.mixerTime := rfl

theorem ext_relayOn (m : Machine) (x : Int) (c : Relay) :
    relayOn (setExtTemp m x) c = setExtTemp (relayOn m c) x := rfl

theorem ext_relayOff (m : Machine) (x : Int) (c : Relay) :
    relayOff (setExtTemp m x) c = setExtTemp (relayOff m c) x := rfl

theorem ext_cupFailure (m : Machine) (x : Int) (now : Nat) :
    cupFailure (setExtTemp m x) now = setExtTemp (cupFailure m now) x := by
  simp only [cupFailure, setError, safeStop, setState, allRelaysOff, setExtTemp]
  split_ifs <;> rfl

theorem ext_runMixRun (m : Machine) (x : Int) (inp : TickInputs) :
    runMixRun (setExtTemp m x) inp = setExtTemp (runMixRun m inp) x := by
  simp only [runMixRun, cupFailure, setError, safeStop, setState, allRelaysOff,
    relayOn, relayOff, setExtTemp]
  split_ifs <;> rfl

theorem ext_runMixUp (m : Machine) (x : Int) (inp : TickInputs) :
    runMixUp (setExtTemp m x) inp = setExtTemp (runMixUp m inp) x := by
  simp only [runMixUp, cupFailure, setError, safeStop, setState, allRelaysOff,
    relayOn, relayOff, setExtTemp]
  split_ifs <;> rfl

theorem ext_mixDownTail (m : Machine) (x : Int) (inp : TickInputs) :
    mixDownTail (setExtTemp m x) inp = setExtTemp (mixDownTail m inp) x := by
  simp only [mixDownTail, setError, safeStop, setState, allRelaysOff,
    relayOn, relayOff, setExtTemp]
  split_ifs <;> rfl

theorem ext_runMixDown (m : Machine) (x : Int) (inp : TickInputs) :
    runMixDown (setExtTemp m x) inp = setExtTemp (runMixDown m inp) x := by
  simp only [runMixDown, mixDownTail, cupFailure, setError, safeStop, setState,
    allRelaysOff, relayOn, relayOff, setExtTemp]
  split_ifs <;> rfl

theorem ext_runHeatExternal (m : Machine) (x : Int) (inp : TickInputs) :
    runHeatExternal (setExtTemp m x) inp = setExtTemp (runHeatExternal m inp) x := by
  simp only [runHeatExternal, cupFailure, setError, safeStop, setState,
    allRelaysOff, relayOn, relayOff, setExtTemp]
  split_ifs <;> rfl

set_option maxHeartbeats 2000000 in
theorem ext_dispenseLiquidCoffee (m : Machine) (x : Int) (inp : TickInputs) :
    dispenseLiquidCoffee (setExtTemp m x) inp =
      setExtTemp (dispenseLiquidCoffee m inp) x := by
  obtain ⟨hal, rel, st, ⟨mo, bb, hl, mr, sz, sg, cm, cw⟩,
    ⟨c1, c2, c3, c4, c5, c6, c7, c8, c9, c10⟩, cs, em, t1, t2, t3, t4, pt, pd,
    wd, md⟩ := m
  by_cases h0 : t3 = 0 <;> by_cases hb : bb = "Water" <;>
    simp only [dispenseLiquidCoffee, setState, relayOn, relayOff,
      getSizeMultiplier, setExtTemp, h0, hb, eq_self_iff_true, if_true,
      if_false, iff_false, iff_true, Bool.false_eq_true, Bool.true_eq_false,
      reduceIte] <;>
    split_ifs <;> rfl

set_option maxHeartbeats 2000000 in
theorem ext_dispenseLiquidCleaning (m : Machine) (x : Int) (inp : TickInputs) :
    dispenseLiquidCleaning (setExtTemp m x) inp =
      setExtTemp (dispenseLiquidCleaning m inp) x := by
  obtain ⟨hal, rel, st, ⟨mo, bb, hl, mr, sz, sg, cm, cw⟩,
    ⟨c1, c2, c3, c4, c5, c6, c7, c8, c9, c10⟩, cs, em, t1, t2, t3, t4, pt, pd,
    wd, md⟩ := m
  by_cases h0 : t3 = 0 <;> by_cases hw : cw = true <;> by_cases hm : cm = true <;>
    simp only [dispenseLiquidCleaning, setState, relayOn, relayOff, setExtTemp,
      h0, hw, hm, eq_self_iff_true, if_true, if_false, iff_false, iff_true,
      Bool.false_eq_true, Bool.true_eq_false, reduceIte] <;>
    split_ifs <;> rfl

theorem ext_runDispenseLiquid (m : Machine) (x : Int) (inp : TickInputs) :
    runDispenseLiquid (setExtTemp m x) inp =
      setExtTemp (runDispenseLiquid m inp) x := by
  simp only [runDispenseLiquid, setExtTemp_order]
  split_ifs <;>
    first
      | exact ext_cupFailure m x inp.now
      | exact ext_dispenseLiquidCoffee m x inp
      | exact ext_dispenseLiquidCleaning m x inp
      | rfl

theorem ext_runDispenseSolids (m : Machine) (x : Int) (inp : TickInputs) :
    runDispenseSolids (setExtTemp m x) inp =
      setExtTemp (runDispenseSolids m inp) x := by
  cases hmode : m.order.mode <;>
    simp only [runDispenseSolids, cupFailure, setError, safeStop, setState,
      allRelaysOff, relayOn, relayOff, setExtTemp, hmode] <;>
    split_ifs <;> rfl

theorem ext_runHeatInternalPreheat (m : Machine) (x : Int) (inp : TickInputs) :
    runHeatInternalPreheat (setExtTemp m x) inp =
      setExtTemp (runHeatInternalPreheat m inp) x := by
  rcases htemp : inp.internalTemp with _ | t <;>
    simp only [runHeatInternalPreheat, cupFailure, setError, safeStop, setState,
      allRelaysOff, relayOn, relayOff, setExtTemp, htemp] <;>
    split_ifs <;> rfl

theorem ext_heatActiveEntry (m : Machine) (x : Int) (now : Nat) :
    heatActiveEntry (setExtTemp m x) now = setExtTemp (heatActiveEntry m now) x := by
  cases hmode : m.order.mode <;>
    simp only [heatActiveEntry, relayOn, getSizeMultiplier, setExtTemp, hmode] <;>
    split_ifs <;> rfl

theorem ext_heatActiveTail (m : Machine) (x : Int) (now e : Nat) :
    heatActiveTail (setExtTemp m x) now e = setExtTemp (heatActiveTail m now e) x := by
  simp only [heatActiveTail, setState, relayOn, relayOff, setExtTemp]
  split_ifs <;> rfl

theorem ext_heatActiveLoop (m : Machine) (x : Int) (inp : TickInputs) :
    heatActiveLoop (setExtTemp m x) inp = setExtTemp (heatActiveLoop m inp) x := by
  rcases htemp : inp.internalTemp with _ | t <;>
    simp only [heatActiveLoop, htemp, setExtTemp_pumpStartTime,
      setExtTemp_heaterStartTime, setExtTemp_intHeaterTime,
      setExtTemp_intHeaterTemp] <;>
    split_ifs <;>
    first
      | rfl
      | exact ext_heatActiveTail _ x inp.now _
      | (rw [ext_relayOn]; exact ext_heatActiveTail _ x inp.now _)
      | (rw [ext_relayOff]; exact ext_heatActiveTail _ x inp.now _)

theorem ext_setStep (m : Machine) (x : Int) (s : String) :
    ({setExtTemp m x with currentStep := s} : Machine) =
      setExtTemp {m with currentStep := s} x := rfl

theorem ext_runHeatInternalActive (m : Machine) (x : Int) (inp : TickInputs) :
    runHeatInternalActive (setExtTemp m x) inp =
      setExtTemp (runHeatInternalActive m inp) x := by
  unfold runHeatInternalActive
  simp only [ext_setStep]
  simp only [setExtTemp_pumpStartTime]
  split_ifs
  · exact ext_cupFailure m x inp.now
  · rw [ext_heatActiveEntry]; exact ext_heatActiveLoop _ x inp
  · exact ext_heatActiveLoop _ x inp

theorem ext_validateStep (m : Machine) (x : Int) (inp : TickInputs)
    (next : MachineState) :
    validateStep (setExtTemp m x) inp next = setExtTemp (validateStep m inp next) x := by
  simp only [validateStep, cupFailure, setError, safeStop, setState,
    allRelaysOff, setExtTemp]
  split_ifs <;> rfl

theorem ext_doneStep (m : Machine) (x : Int) (now : Nat) :
    doneStep (setExtTemp m x) now = setExtTemp (doneStep m now) x := by
  simp only [doneStep, setState, allRelaysOff, setExtTemp]

theorem ext_updateCoffee (m : Machine) (x : Int) (inp : TickInputs) :
    updateCoffee (setExtTemp m x) inp = setExtTemp (updateCoffee m inp) x := by
  cases hst : m.state <;>
    simp only [updateCoffee, setExtTemp_state, hst]
  case VALIDATE => exact ext_validateStep m x inp _
  case DISPENSE_SOLIDS =>
    rw [ext_runDispenseSolids]
    simp only [setExtTemp_state, setExtTemp_stateStartTime, getSugarMultiplier,
      getSizeMultiplier, setExtTemp_order, setExtTemp_tank1Time, setExtTemp_tank2Time]
    split_ifs <;> rfl
  case DISPENSE_LIQUID => exact ext_runDispenseLiquid m x inp
  case HEAT_EXTERNAL => exact ext_runHeatExternal m x inp
  case MIX_DOWN => exact ext_runMixDown m x inp
  case MIX_RUN => exact ext_runMixRun m x inp
  case MIX_UP => exact ext_runMixUp m x inp
  case DONE => exact ext_doneStep m x inp.now

theorem ext_updateHotWater (m : Machine) (x : Int) (inp : TickInputs) :
    updateHotWater (setExtTemp m x) inp = setExtTemp (updateHotWater m inp) x := by
  cases hst : m.state <;>
    simp only [updateHotWater, setExtTemp_state, hst]
  case VALIDATE => exact ext_validateStep m x inp _
  case DISPENSE_SOLIDS =>
    rw [ext_runDispenseSolids]
    simp only [setExtTemp_state, setExtTemp_stateStartTime, getSugarMultiplier,
      setExtTemp_order, setExtTemp_tank1Time]
    split_ifs <;> rfl
  case HEAT_INTERNAL_PREHEAT => exact ext_runHeatInternalPreheat m x inp
  case HEAT_INTERNAL_ACTIVE => exact ext_runHeatInternalActive m x inp
  case MIX_DOWN => exact ext_runMixDown m x inp
  case MIX_RUN => exact ext_runMixRun m x inp
  case MIX_UP => exact ext_runMixUp m x inp
  case DONE => exact ext_doneStep m x inp.now

theorem ext_updateNescafe (m : Machine) (x : Int) (inp : TickInputs) :
    updateNescafe (setExtTemp m x) inp = setExtTemp (updateNescafe m inp) x := by
  cases hst : m.state <;>
    simp only [updateNescafe, setExtTemp_state, hst]
  case VALIDATE => exact ext_validateStep m x inp _
  case DISPENSE_SOLIDS =>
    rw [ext_runDispenseSolids]
    simp only [setExtTemp_state, setExtTemp_stateStartTime, getSugarMultiplier,
      getSizeMultiplier, setExtTemp_order, setExtTemp_tank1Time, setExtTemp_tank3Time]
    split_ifs <;> rfl
  case HEAT_INTERNAL_PREHEAT => exact ext_runHeatInternalPreheat m x inp
  case HEAT_INTERNAL_ACTIVE => exact ext_runHeatInternalActive m x inp
  case MIX_DOWN => exact ext_runMixDown m x inp
  case MIX_RUN => exact ext_runMixRun m x inp
  case MIX_UP => exact ext_runMixUp m x inp
  case DONE => exact ext_doneStep m x inp.now

theorem ext_updateCleaning (m : Machine) (x : Int) (inp : TickInputs) :
    updateCleaning (setExtTemp m x) inp = setExtTemp (updateCleaning m inp) x := by
  cases hst : m.state <;>
    simp only [updateCleaning, setExtTemp_state, hst]
  case VALIDATE => exact ext_validateStep m x inp _
  case DISPENSE_LIQUID => exact ext_runDispenseLiquid m x inp
  case DONE => exact ext_doneStep m x inp.now

/-- One tick commutes with overwriting `extHeaterTemp`: the configured
external-heater temperature is never consulted by `update`. -/
theorem ext_update (m : Machine) (x : Int) (inp : TickInputs) :
    update (setExtTemp m x) inp = setExtTemp (update m inp) x := by
  cases hmode : m.order.mode <;>
    simp only [update, setExtTemp_state, setExtTemp_order, hmode] <;>
    split_ifs <;>
    first
      | rfl
      | exact ext_updateCoffee m x inp
      | exact ext_updateHotWater m x inp
      | exact ext_updateNescafe m x inp
      | exact ext_updateCleaning m x inp

/-! ## Cup-absence behaviour of one tick -/

/-- The dispatch states in which one `tick` of the given recipe runs a
cup-checking action (`Validate` plus the recipe's own sub-phases; the
`DONE` hand-over and the states outside the recipe's graph check
nothing). -/
def cupCheckedStates : DrinkMode → List MachineState
  | MODE_COFFEE =>
    [VALIDATE, DISPENSE_SOLIDS, DISPENSE_LIQUID, HEAT_EXTERNAL, MIX_DOWN,
     MIX_RUN, MIX_UP]
  | MODE_HOTWATER =>
    [VALIDATE, DISPENSE_SOLIDS, HEAT_INTERNAL_PREHEAT, HEAT_INTERNAL_ACTIVE,
     MIX_DOWN, MIX_RUN, MIX_UP]
  | MODE_NESCAFE =>
    [VALIDATE, DISPENSE_SOLIDS, HEAT_INTERNAL_PREHEAT, HEAT_INTERNAL_ACTIVE,
     MIX_DOWN, MIX_RUN, MIX_UP]
  | MODE_CLEANING => [VALIDATE, DISPENSE_LIQUID]
  | MODE_NONE => []

theorem update_noCup (m : Machine) (inp : TickInputs) (hcup : inp.cup = false)
    (hst : m.state ∈ cupCheckedStates m.order.mode) :
    update m inp = cupFailure m inp.now := by
  cases hmode : m.order.mode <;> rw [hmode] at hst <;>
    simp only [cupCheckedStates, List.mem_cons, List.not_mem_nil,
      or_false] at hst
  case MODE_COFFEE =>
    rcases hst with h | h | h | h | h | h | h <;>
      simp [update, updateCoffee, runDispenseSolids, runDispenseLiquid,
        runHeatExternal, runMixDown, runMixRun, runMixUp, validateStep,
        cupFailure_state, hmode, h, hcup]
  case MODE_HOTWATER =>
    rcases hst with h | h | h | h | h | h | h <;>
      simp [update, updateHotWater, runDispenseSolids, runHeatInternalPreheat,
        runHeatInternalActive, runMixDown, runMixRun, runMixUp, validateStep,
        cupFailure_state, hmode, h, hcup]
  case MODE_NESCAFE =>
    rcases hst with h | h | h | h | h | h | h <;>
      simp [update, updateNescafe, runDispenseSolids, runHeatInternalPreheat,
        runHeatInternalActive, runMixDown, runMixRun, runMixUp, validateStep,
        cupFailure_state, hmode, h, hcup]
  case MODE_CLEANING =>
    rcases hst with h | h <;>
      simp [update, updateCleaning, runDispenseLiquid, validateStep,
        cupFailure_state, hmode, h, hcup]

theorem heatActiveEntry_heaterStartTime (m : Machine) (now : Nat) :
    (heatActiveEntry m now).heaterStartTime = m.heaterStartTime := by
  unfold heatActiveEntry
  cases hmode : m.order.mode <;> simp only [hmode] <;> split_ifs <;> rfl

theorem heatActiveEntry_cfg (m : Machine) (now : Nat) :
    (heatActiveEntry m now).cfg = m.cfg := by
  unfold heatActiveEntry
  cases hmode : m.order.mode <;> simp only [hmode] <;> split_ifs <;> rfl

/-! ## Further concrete instances for the claim theorems -/

/-- A tick snapshot: cup present, no valid temperature reading. -/
def tickCupPresent : TickInputs := ⟨1000, true, none, false, false⟩

/-- A tick snapshot with the cup absent. -/
def tickNoCup : TickInputs := ⟨1000, false, none, false, false⟩

/-- A tick snapshot at 10 ms with the cup present and the internal
thermocouple reading 112 °C. -/
def tickHot112 : TickInputs := ⟨10, true, some 112, false, false⟩

/-- `solidsMachine` having reached `DONE`. -/
def doneMachine : Machine := {solidsMachine with state := DONE}

/-- A hot-drink cycle mid `HEAT_INTERNAL_PREHEAT`, heater energized. -/
def preheatHotMachine : Machine :=
  {solidsMachine with
    order := hotWaterOrder
    state := HEAT_INTERNAL_PREHEAT
    heaterStartTime := 5
    preheatTarget := 90
    relays := {Relays.off with heaterInternal := true}}

/-- A hot-drink cycle mid `HEAT_INTERNAL_ACTIVE`, heater and water pump
energized. -/
def activeHotMachine : Machine :=
  {solidsMachine with
    order := hotWaterOrder
    state := HEAT_INTERNAL_ACTIVE
    heaterStartTime := 5
    pumpStartTime := 5
    pumpDuration := 5000
    relays := {Relays.off with heaterInternal := true, pumpWater := true}}

/-- A coffee cycle mid `MIX_RUN`, mixer rotating. -/
def mixRunMachine : Machine :=
  {solidsMachine with
    state := MIX_RUN
    stepStartTime := 5
    relays := {Relays.off with mixerRotate := true}}

/-- Valid settings differing from the defaults in the ignored
`extHeaterTemp` field. -/
def goodCfg : Settings := {defaultCfg with extHeaterTemp := 77}

/-- Settings rejected by `validate` (`mixerTime` beyond 60). -/
def badCfg : Settings := {defaultCfg with mixerTime := 400}

/-! ## Claim theorems -/

/-- C1, counterexample: a `start()` call made while a coffee cycle is
dispensing solids returns `false`, but it does not leave the FSM
unchanged — it moves the state to `ERROR_STATE` and de-energizes the two
tank relays that were on, refuting the claim as stated. -/
theorem C1_counterexample :
    solidsMachine.state ≠ IDLE ∧
    isBusy solidsMachine = true ∧
    (start solidsMachine coffeeOrder defaultCfg 500).1 = false ∧
    (start solidsMachine coffeeOrder defaultCfg 500).2.state
      ≠ solidsMachine.state ∧
    (start solidsMachine coffeeOrder defaultCfg 500).2.relays
      ≠ solidsMachine.relays := by
  decide

/-- C1, amended: a `start()` call made while a cycle is in flight
(`isBusy`, i.e. state ∉ {Idle, Error}) returns `false` and energizes no
relay, but it does mutate the controller: it records the error `BUSY`,
moves the state to `ERROR_STATE` and de-energizes every relay. -/
theorem C1_start_busy_rejected (m : Machine) (params : OrderParams)
    (snap : Settings) (now : Nat) (hr : m.halReady = true)
    (hb : isBusy m = true) :
    (start m params snap now).1 = false ∧
    (start m params snap now).2.state = ERROR_STATE ∧
    (start m params snap now).2.errorMsg = "BUSY" ∧
    (start m params snap now).2.relays = Relays.off := by
  have h2 : (start m params snap now) = (false, setError m now "BUSY") := by
    simp [start, hr, hb]
  rw [h2]
  exact ⟨rfl, rfl, rfl, setError_relays m now _ hr⟩

/-- C1, witness for the amended claim at the concrete busy machine. -/
theorem C1_witness :
    (start solidsMachine coffeeOrder defaultCfg 500).1 = false ∧
    (start solidsMachine coffeeOrder defaultCfg 500).2.state = ERROR_STATE ∧
    (start solidsMachine coffeeOrder defaultCfg 500).2.errorMsg = "BUSY" ∧
    (start solidsMachine coffeeOrder defaultCfg 500).2.relays = Relays.off :=
  C1_start_busy_rejected solidsMachine coffeeOrder defaultCfg 500 rfl (by decide)

/-- C2, code evidence: `stop()` during a coffee `DISPENSE_SOLIDS` phase
de-energizes every relay but leaves the state unchanged, so the very next
`tick()` is not a no-op: it re-energizes the sugar and coffee tank relays
and the cycle keeps running (the FSM is not terminal). -/
theorem C2_stop_then_tick_resumes :
    (stop solidsMachine).relays = Relays.off ∧
    (stop solidsMachine).state = DISPENSE_SOLIDS ∧
    isBusy (stop solidsMachine) = true ∧
    (update (stop solidsMachine) tickCupPresent).state = DISPENSE_SOLIDS ∧
    (update (stop solidsMachine) tickCupPresent).relays.tank1Sugar = true ∧
    (update (stop solidsMachine) tickCupPresent).relays.tank2Coffee = true := by
  decide

/-- C3: whenever a tick, a `start()` call, or a `stop()` call moves the
FSM into `IDLE`, `ERROR_STATE` or `SAFE_STOP`, every relay is
de-energized at the end of that call (for `stop()`, which never changes
the state, all relays are off unconditionally). -/
theorem C3_terminal_states_relays_off (m : Machine) (inp : TickInputs)
    (params : OrderParams) (snap : Settings) (now : Nat)
    (hr : m.halReady = true) :
    (((update m inp).state = IDLE ∨ (update m inp).state = ERROR_STATE ∨
        (update m inp).state = SAFE_STOP) →
      (update m inp).state ≠ m.state →
      (update m inp).relays = Relays.off) ∧
    (((start m params snap now).2.state = IDLE ∨
        (start m params snap now).2.state = ERROR_STATE ∨
        (start m params snap now).2.state = SAFE_STOP) →
      (start m params snap now).2.state ≠ m.state →
      (start m params snap now).2.relays = Relays.off) ∧
    (stop m).relays = Relays.off := by
  refine ⟨?_, ?_, ?_⟩
  · intro hterm hchange
    rcases step_update m inp hr with ⟨h1, _⟩ | ⟨h1, _⟩ | ⟨_, h2, _⟩ | ⟨_, h2, _⟩
    · exact absurd h1 hchange
    · rcases hterm with ht | ht | ht <;> rw [ht] at h1 <;>
        exact absurd h1 (by decide)
    · exact h2
    · exact h2
  · by_cases hb : isBusy m = true
    · have h2 : (start m params snap now) = (false, setError m now "BUSY") := by
        simp [start, hr, hb]
      rw [h2]
      exact fun _ _ => setError_relays m now _ hr
    · have h2 : (start m params snap now) =
          (true, setState
            {m with order := params, cfg := snap, errorMsg := ""} now VALIDATE) := by
        simp [start, hr, hb]
      rw [h2]
      intro hterm _
      rcases hterm with ht | ht | ht <;> exact absurd ht (by simp [setState])
  · simp [stop, safeStop, allRelaysOff, hr]

/-- C3, witness: the tick that completes the `DONE` hand-over of a coffee
cycle lands in `IDLE` with every relay off. -/
theorem C3_witness : (update doneMachine tickCupPresent).relays = Relays.off :=
  (C3_terminal_states_relays_off doneMachine tickCupPresent coffeeOrder
    defaultCfg 5 rfl).1 (by decide) (by decide)

/-- C5, counterexample: a tick taken in `DONE` (a state outside
{Idle, Error}) with the cup absent does not fail — `updateCoffee` has no
cup check in its `DONE` arm, so the machine lands in `IDLE` with an empty
error tag instead of `ERROR_STATE`. -/
theorem C5_counterexample :
    doneMachine.state = DONE ∧
    doneMachine.state ≠ IDLE ∧
    doneMachine.state ≠ ERROR_STATE ∧
    tickNoCup.cup = false ∧
    (update doneMachine tickNoCup).state = IDLE ∧
    (update doneMachine tickNoCup).state ≠ ERROR_STATE ∧
    (update doneMachine tickNoCup).errorMsg = "" := by
  decide

/-- C5, amended: a tick taken with the cup absent in any state in which
the recipe's sequencer runs a cup-checking action (all phases of the
recipe's graph except the `DONE` hand-over) moves the FSM to
`ERROR_STATE` with every relay off; the error is `NO_CUP` from
`VALIDATE` and `NO_CUP_DURING_RUN` from every later phase. -/
theorem C5_no_cup_aborts (m : Machine) (inp : TickInputs)
    (hr : m.halReady = true) (hcup : inp.cup = false)
    (hst : m.state ∈ cupCheckedStates m.order.mode) :
    (update m inp).state = ERROR_STATE ∧
    (update m inp).errorMsg =
      (if m.state = VALIDATE then "NO_CUP" else "NO_CUP_DURING_RUN") ∧
    (update m inp).relays = Relays.off := by
  rw [update_noCup m inp hcup hst]
  refine ⟨cupFailure_state m inp.now, ?_, cupFailure_relays m inp.now hr⟩
  rw [cupFailure_errorMsg]
  have hnid : m.state ≠ IDLE := by
    intro hid
    rw [hid] at hst
    cases hmode : m.order.mode <;> rw [hmode] at hst <;>
      simp [cupCheckedStates] at hst
  by_cases hv : m.state = VALIDATE <;> simp [hv, hnid]

/-- C5, witness: losing the cup during `MIX_RUN` of a coffee cycle aborts
with `NO_CUP_DURING_RUN` and all relays off. -/
theorem C5_witness :
    (update mixRunMachine tickNoCup).state = ERROR_STATE ∧
    (update mixRunMachine tickNoCup).errorMsg =
      (if mixRunMachine.state = VALIDATE then "NO_CUP"
       else "NO_CUP_DURING_RUN") ∧
    (update mixRunMachine tickNoCup).relays = Relays.off :=
  C5_no_cup_aborts mixRunMachine tickNoCup rfl rfl (by decide)

/-- C7, code evidence: from power-on bookkeeping (`debounceState = HIGH`,
count 0) and a constant raw `HIGH` stream, samples 4 and before return the
inverse of the raw value and samples 5 through 255 return the raw value as
the claim states, but at sample 256 the `uint8_t` sample counter wraps
from 255 to 0 and `debounceRead` returns the inverse of the raw value
again, although far more than `DEBOUNCE_READS` consecutive consistent
samples have been observed. -/
theorem C7_debounce_counter_overflow :
    debounceOut true 3 = false ∧
    debounceOut true 4 = true ∧
    debounceOut true 254 = true ∧
    debounceOut true 255 = false := by
  have h : ∀ n : Nat, debounceConst true n = ⟨true, n % 256⟩ := by
    intro n
    induction n with
    | zero => rfl
    | succ k ih =>
      show (debounceRead (debounceConst true k) true).2 = _
      rw [ih]
      simp [debounceRead, Nat.add_mod]
  refine ⟨?_, ?_, ?_, ?_⟩ <;>
    simp [debounceOut, h, debounceRead, DEBOUNCE_READS]

/-- C8: saving settings whose every field lies inside the §3.2 ranges
succeeds and a following `get()` returns them verbatim (the ignored
`extHeaterTemp` field included); saving out-of-range settings fails and
leaves the stored settings unchanged. -/
theorem C8_settings_roundtrip (cur s : Settings) :
    (inRange s → save cur s = (true, s) ∧ get (save cur s).2 = s) ∧
    (¬inRange s → save cur s = (false, cur) ∧ get (save cur s).2 = cur) := by
  constructor
  · intro h
    have hv : validate s = true := decide_eq_true h
    simp [save, get, hv]
  · intro h
    have hv : validate s = false := decide_eq_false h
    simp [save, get, hv]

/-- C8, witness: the valid record `goodCfg` (non-default `extHeaterTemp`)
round-trips verbatim, and the invalid `badCfg` is rejected leaving the
defaults in place. -/
theorem C8_witness :
    (save defaultCfg goodCfg = (true, goodCfg) ∧
      get (save defaultCfg goodCfg).2 = goodCfg) ∧
    (save defaultCfg badCfg = (false, defaultCfg) ∧
      get (save defaultCfg badCfg).2 = defaultCfg) :=
  ⟨(C8_settings_roundtrip defaultCfg goodCfg).1 (by decide),
   (C8_settings_roundtrip defaultCfg badCfg).2 (by decide)⟩

/-- A Nescafe cycle entering `HEAT_INTERNAL_ACTIVE` (pump clock not yet
stamped). -/
def nescafeEntryMachine : Machine :=
  {solidsMachine with
    order := nescafeOrder
    state := HEAT_INTERNAL_ACTIVE
    heaterStartTime := 5}

/-- If the temperature block of `runHeatInternalActive` sees a reading
above `INTERNAL_HEATER_ABS_MAX` (and the heat budget has not expired
first), the tick ends in `ERROR_STATE` with the `SENSOR_FAIL` tag and
every relay off. -/
theorem heatActiveLoop_absMax (m2 : Machine) (inp : TickInputs) (t : ℚ)
    (hr : m2.halReady = true) (ht : inp.internalTemp = some t)
    (hhot : t > INTERNAL_HEATER_ABS_MAX)
    (hbudget : ¬ inp.now - m2.heaterStartTime >
      ulOf (m2.cfg.intHeaterTime * 1000)) :
    (heatActiveLoop m2 inp).state = ERROR_STATE ∧
    (heatActiveLoop m2 inp).errorMsg = "SENSOR_FAIL" ∧
    (heatActiveLoop m2 inp).relays = Relays.off := by
  unfold heatActiveLoop
  rw [ht]
  dsimp only
  rw [if_neg hbudget, if_pos hhot]
  refine ⟨rfl, rfl, ?_⟩
  refine relayOff_relays_off _ _ (setError_relays _ _ _ ?_)
  split_ifs <;> simp [hr]

/-- C4, counterexample: a preheat tick (`HEAT_INTERNAL_PREHEAT`) that
reads 112 °C — above `INTERNAL_HEATER_ABS_MAX` = 110 — does not fault:
`runHeatInternalPreheat` has no absolute-maximum check, so the heater
relay stays energized and the state moves on to `HEAT_INTERNAL_ACTIVE`
instead of `ERROR_STATE`. -/
theorem C4_counterexample :
    preheatHotMachine.state = HEAT_INTERNAL_PREHEAT ∧
    preheatHotMachine.relays.heaterInternal = true ∧
    tickHot112.internalTemp = some 112 ∧
    (112 : ℚ) > INTERNAL_HEATER_ABS_MAX ∧
    (update preheatHotMachine tickHot112).relays.heaterInternal = true ∧
    (update preheatHotMachine tickHot112).state ≠ ERROR_STATE := by
  decide

/-- C4, amended: the absolute-maximum cut-out exists only in
`HEAT_INTERNAL_ACTIVE`.  There, a tick whose reading exceeds
`INTERNAL_HEATER_ABS_MAX` (with the cup present and the heat budget not
already expired) ends in `ERROR_STATE` with the `SENSOR_FAIL` tag and
the internal-heater relay off, whatever the configured target. -/
theorem C4_heat_active_abs_max (m : Machine) (inp : TickInputs) (t : ℚ)
    (hr : m.halReady = true) (hst : m.state = HEAT_INTERNAL_ACTIVE)
    (hmode : m.order.mode = MODE_HOTWATER ∨ m.order.mode = MODE_NESCAFE)
    (hcup : inp.cup = true) (ht : inp.internalTemp = some t)
    (hhot : t > INTERNAL_HEATER_ABS_MAX)
    (hbudget : ¬ inp.now - m.heaterStartTime >
      ulOf (m.cfg.intHeaterTime * 1000)) :
    (update m inp).state = ERROR_STATE ∧
    (update m inp).errorMsg = "SENSOR_FAIL" ∧
    (update m inp).relays.heaterInternal = false := by
  have hred : update m inp = runHeatInternalActive m inp := by
    rcases hmode with h | h <;>
      simp [update, updateHotWater, updateNescafe, hst, h]
  rw [hred]
  unfold runHeatInternalActive
  simp only [hcup, Bool.true_eq_false, reduceIte]
  dsimp only
  by_cases hp : m.pumpStartTime = 0
  · rw [if_pos hp]
    have h := heatActiveLoop_absMax
      (heatActiveEntry {m with currentStep := "Heating and pumping"} inp.now)
      inp t (by rw [heatActiveEntry_halReady]; exact hr) ht hhot
      (by rw [heatActiveEntry_heaterStartTime, heatActiveEntry_cfg]; exact hbudget)
    refine ⟨h.1, h.2.1, ?_⟩
    rw [h.2.2]
    rfl
  · rw [if_neg hp]
    have h := heatActiveLoop_absMax
      {m with currentStep := "Heating and pumping"} inp t hr ht hhot hbudget
    refine ⟨h.1, h.2.1, ?_⟩
    rw [h.2.2]
    rfl

/-- C4, witness for the amended claim: an active-phase tick reading
112 °C faults with `SENSOR_FAIL` and the heater off. -/
theorem C4_witness :
    (update activeHotMachine tickHot112).state = ERROR_STATE ∧
    (update activeHotMachine tickHot112).errorMsg = "SENSOR_FAIL" ∧
    (update activeHotMachine tickHot112).relays.heaterInternal = false :=
  C4_heat_active_abs_max activeHotMachine tickHot112 112 rfl rfl
    (Or.inl rfl) rfl rfl (by decide) (by decide)

/-- C6: for a Nescafe order in `HEAT_INTERNAL_ACTIVE` the pump phase
starts with `PumpWater` on and `pumpDuration = waterDuration +
milkDuration`; once the elapsed pump time exceeds `waterDuration` (and
milk is ordered, and the total has not yet elapsed) `PumpWater` is off
and `PumpMilk` on with the state unchanged; once the elapsed time
reaches `pumpDuration` both pumps and the internal heater are off and
the state is `MIX_DOWN`; and with medium milk ratio, single size and the
default settings the durations are 3750 ms water, 1000 ms milk, 4750 ms
total. -/
theorem C6_nescafe_pump_phases (m : Machine) (now pe : Nat)
    (hr : m.halReady = true) (hmode : m.order.mode = MODE_NESCAFE) :
    ((heatActiveEntry m now).relays.pumpWater = true ∧
     (heatActiveEntry m now).pumpDuration =
       (heatActiveEntry m now).waterDuration +
       (heatActiveEntry m now).milkDuration) ∧
    (pe > ulOf m.waterDuration → m.milkDuration > 0 →
      ¬ pe ≥ ulOf m.pumpDuration →
      (heatActiveTail m now pe).relays.pumpWater = false ∧
      (heatActiveTail m now pe).relays.pumpMilk = true ∧
      (heatActiveTail m now pe).state = m.state) ∧
    (pe ≥ ulOf m.pumpDuration →
      (heatActiveTail m now pe).relays.pumpWater = false ∧
      (heatActiveTail m now pe).relays.pumpMilk = false ∧
      (heatActiveTail m now pe).relays.heaterInternal = false ∧
      (heatActiveTail m now pe).state = MIX_DOWN) ∧
    ((heatActiveEntry nescafeEntryMachine 100).waterDuration = 3750 ∧
     (heatActiveEntry nescafeEntryMachine 100).milkDuration = 1000 ∧
     (heatActiveEntry nescafeEntryMachine 100).pumpDuration = 4750) := by
  refine ⟨?_, ?_, ?_, by decide⟩
  · unfold heatActiveEntry
    simp only [hmode]
    split_ifs <;> simp [relayOn, Relays.set, hr]
  · intro hpw hmd hnd
    unfold heatActiveTail
    dsimp only
    simp [hmode, hpw, hmd, hnd, relayOn, relayOff, Relays.set, hr]
  · intro hd
    unfold heatActiveTail
    dsimp only
    by_cases hc : m.order.mode = MODE_NESCAFE ∧ pe > ulOf m.waterDuration ∧
        m.milkDuration > 0
    · simp [hc, hd, relayOn, relayOff, Relays.set, setState, hr]
    · simp [hc, hd, relayOff, Relays.set, setState, hr]

/-- C6, witness: the concrete Nescafe cycle starts its pump phase with
`PumpWater` on and, 4750 ms later, has handed over to `MIX_DOWN`. -/
theorem C6_witness :
    (heatActiveEntry nescafeEntryMachine 100).relays.pumpWater = true ∧
    (heatActiveTail nescafeEntryMachine 100 4750).state = MIX_DOWN := by
  refine ⟨(C6_nescafe_pump_phases nescafeEntryMachine 100 4750 rfl rfl).1.1, ?_⟩
  exact ((C6_nescafe_pump_phases nescafeEntryMachine 100 4750 rfl rfl).2.2.1
    (by decide)).2.2.2

/-- C9: the configured `extHeaterTemp` is never consulted — one tick from
machines differing only in that field produces identical observables
(state, relays, step and error strings) — and `HEAT_EXTERNAL` is purely
time-based: on entry it energizes the external heater, and once the
elapsed step time reaches `extHeaterTime · 1000` it de-energizes it,
clears the step clock and transitions to `MIX_DOWN`. -/
theorem C9_ext_temp_never_consulted (m : Machine) (x y : Int)
    (inp : TickInputs) :
    ((update (setExtTemp m x) inp).state = (update (setExtTemp m y) inp).state ∧
     (update (setExtTemp m x) inp).relays =
       (update (setExtTemp m y) inp).relays ∧
     (update (setExtTemp m x) inp).currentStep =
       (update (setExtTemp m y) inp).currentStep ∧
     (update (setExtTemp m x) inp).errorMsg =
       (update (setExtTemp m y) inp).errorMsg) ∧
    (inp.cup = true → m.halReady = true → m.stepStartTime = 0 →
      0 < ulOf (m.cfg.extHeaterTime * 1000) →
      (runHeatExternal m inp).relays.heaterExternal = true ∧
      (runHeatExternal m inp).state = m.state) ∧
    (inp.cup = true → m.halReady = true → m.stepStartTime ≠ 0 →
      inp.now - m.stepStartTime ≥ ulOf (m.cfg.extHeaterTime * 1000) →
      (runHeatExternal m inp).relays.heaterExternal = false ∧
      (runHeatExternal m inp).state = MIX_DOWN ∧
      (runHeatExternal m inp).stepStartTime = 0) := by
  refine ⟨⟨?_, ?_, ?_, ?_⟩, ?_, ?_⟩
  · rw [ext_update, ext_update, setExtTemp_state, setExtTemp_state]
  · rw [ext_update, ext_update, setExtTemp_relays, setExtTemp_relays]
  · rw [ext_update, ext_update, setExtTemp_currentStep, setExtTemp_currentStep]
  · rw [ext_update, ext_update, setExtTemp_errorMsg, setExtTemp_errorMsg]
  · intro hcup hr h0 hpos
    unfold runHeatExternal
    simp [hcup, h0, Nat.pos_iff_ne_zero.mp hpos, relayOn, Relays.set, hr]
  · intro hcup hr h0 hdone
    unfold runHeatExternal
    simp [hcup, h0, hdone, relayOff, Relays.set, setState, hr]

/-- C9, witness: over one tick, a machine configured with
`extHeaterTemp = 90` and one with `extHeaterTemp = 60` behave
identically, and the external-heater phase of a concrete coffee cycle
enters with the heater on. -/
theorem C9_witness :
    (update (setExtTemp solidsMachine 90) tickCupPresent).state =
      (update (setExtTemp solidsMachine 60) tickCupPresent).state ∧
    (update (setExtTemp solidsMachine 90) tickCupPresent).relays =
      (update (setExtTemp solidsMachine 60) tickCupPresent).relays ∧
    (runHeatExternal solidsMachine tickCupPresent).relays.heaterExternal =
      true := by
  have h := C9_ext_temp_never_consulted solidsMachine 90 60 tickCupPresent
  exact ⟨h.1.1, h.1.2.1, (h.2.1 rfl rfl rfl (by decide)).1⟩

/-- C10: `stop()` during a cycle keeps the state, so `isBusy` stays
true; the very next `start()` is rejected with `BUSY` and itself moves
the FSM to `ERROR_STATE`; a `start()` issued after that rejection
succeeds into `VALIDATE`; and `"ABORTED"` is never produced — `stop()`
keeps the error tag, a tick never turns a non-`ABORTED` tag into
`"ABORTED"`, and `start()` only ever writes `NOT_READY`, `BUSY` or the
empty tag. -/
theorem C10_stop_keeps_busy (m : Machine) (params params2 : OrderParams)
    (snap snap2 : Settings) (now now2 : Nat) (inp : TickInputs)
    (hr : m.halReady = true) (hb : isBusy m = true)
    (hna : m.errorMsg ≠ "ABORTED") :
    (stop m).state = m.state ∧
    isBusy (stop m) = true ∧
    (start (stop m) params snap now).1 = false ∧
    (start (stop m) params snap now).2.errorMsg = "BUSY" ∧
    (start (stop m) params snap now).2.state = ERROR_STATE ∧
    (start (start (stop m) params snap now).2 params2 snap2 now2).1 = true ∧
    (start (start (stop m) params snap now).2 params2 snap2 now2).2.state
      = VALIDATE ∧
    (stop m).errorMsg = m.errorMsg ∧
    (update m inp).errorMsg ≠ "ABORTED" ∧
    (start m params snap now).2.errorMsg ≠ "ABORTED" := by
  have hs1 : start (stop m) params snap now =
      (false, setError (stop m) now "BUSY") := by
    simp [start, stop, safeStop, allRelaysOff, hr]
    simp [isBusy] at hb ⊢
    simpa [stop, safeStop, allRelaysOff] using hb
  refine ⟨rfl, hb, ?_, ?_, ?_, ?_, ?_, rfl, ?_, ?_⟩
  · rw [hs1]
  · rw [hs1]; rfl
  · rw [hs1]; rfl
  · rw [hs1]
    simp [start, stop, setError, safeStop, allRelaysOff, setState, isBusy, hr]
  · rw [hs1]
    simp [start, stop, setError, safeStop, allRelaysOff, setState, isBusy, hr]
  · rcases step_update m inp hr with ⟨_, h2⟩ | ⟨_, h2⟩ | ⟨_, _, h2⟩ | ⟨_, _, h2⟩
    · rw [h2]; exact hna
    · rw [h2]; exact hna
    · rw [h2]; exact hna
    · exact h2
  · unfold start
    split_ifs <;> simp

/-- C10, witness at the concrete mid-cycle machine. -/
theorem C10_witness :
    (stop solidsMachine).state = solidsMachine.state ∧
    isBusy (stop solidsMachine) = true ∧
    (start (stop solidsMachine) coffeeOrder defaultCfg 500).1 = false ∧
    (start (stop solidsMachine) coffeeOrder defaultCfg 500).2.errorMsg
      = "BUSY" ∧
    (start (stop solidsMachine) coffeeOrder defaultCfg 500).2.state
      = ERROR_STATE ∧
    (start (start (stop solidsMachine) coffeeOrder defaultCfg 500).2
      nescafeOrder defaultCfg 600).1 = true ∧
    (start (start (stop solidsMachine) coffeeOrder defaultCfg 500).2
      nescafeOrder defaultCfg 600).2.state = VALIDATE ∧
    (stop solidsMachine).errorMsg = solidsMachine.errorMsg ∧
    (update solidsMachine tickCupPresent).errorMsg ≠ "ABORTED" ∧
    (start solidsMachine coffeeOrder defaultCfg 500).2.errorMsg
      ≠ "ABORTED" :=
  C10_stop_keeps_busy solidsMachine coffeeOrder nescafeOrder defaultCfg
    defaultCfg 500 600 tickCupPresent rfl (by decide) (by decide)

end Coffee
